import Mathlib

/-
  Verification development for starfield.js (carlosrudriguez/starfield).

  The JavaScript source is shallowly embedded over ℚ: JS numbers are
  modelled as exact rationals, `Math.random()` draws are passed in as
  explicit parameters, and the requestAnimationFrame scheduler is
  modelled as a counter of platform-scheduled callbacks.  Each Lean
  definition mirrors one function of starfield.js and keeps its name.
-/

namespace Starfield

/-- A JavaScript option value that may or may not be a number.
Used for `dprCap`, whose type is checked at runtime with `typeof`. -/
inductive JSVal where
  | num (q : ℚ)
  | nonNum
deriving DecidableEq

/-- The configuration keys of `DEFAULTS` that the simulation core reads
(presentation-only keys such as colors and zIndex are omitted). -/
structure Options where
  starCount : Nat
  speed : ℚ
  trailLength : ℚ
  mobileSpeedMultiplier : ℚ
  desktopSpeedMultiplier : ℚ
  mobileTrailMultiplier : ℚ
  desktopTrailMultiplier : ℚ
  mobileBreakpoint : ℚ
  dprCap : JSVal
deriving DecidableEq

/-- The default option values of `DEFAULTS` in starfield.js. -/
def DEFAULTS : Options :=
  { starCount := 800
    speed := 10
    trailLength := 10
    mobileSpeedMultiplier := 0.5
    desktopSpeedMultiplier := 1.1
    mobileTrailMultiplier := 0.65
    desktopTrailMultiplier := 1
    mobileBreakpoint := 900
    dprCap := JSVal.num 2 }

/-- The viewport-derived instance fields of a `Starfield` object:
`this.width`, `this.height`, `this.centerX`, `this.centerY`,
`this.maxDepth`, `this.speedMultiplier`, `this.trailLength`. -/
structure View where
  width : ℚ
  height : ℚ
  centerX : ℚ
  centerY : ℚ
  maxDepth : ℚ
  speedMultiplier : ℚ
  trailLength : ℚ
deriving DecidableEq

/-- A star object `{x, y, z, pz}` as created by `createStar`. -/
structure Star where
  x : ℚ
  y : ℚ
  z : ℚ
  pz : ℚ
deriving DecidableEq

/-- The `map` helper: linear mapping used for projection and line width. -/
def map (value istart istop ostart ostop : ℚ) : ℚ :=
  ostart + (ostop - ostart) * ((value - istart) / (istop - istart))

/-- The `clamp` helper: `Math.max(min, Math.min(max, value))`. -/
def clamp (value lo hi : ℚ) : ℚ :=
  max lo (min hi value)

/-- `resetStar(star, initial)`.  The three `Math.random()` draws are the
parameters `rz rx ry`, in the order the source draws them; each is
expected in `[0, 1)`.  The star argument is overwritten wholesale,
so the result does not depend on it. -/
def resetStar (v : View) (_star : Star) (initial : Bool) (rz rx ry : ℚ) : Star :=
  let z := if initial then rz * v.maxDepth else v.maxDepth
  { x := (rx * v.width - v.width / 2) * 2
    y := (ry * v.height - v.height / 2) * 2
    z := z
    pz := z }

/-- `projectX(x, z) = map(x / z, 0, 1, 0, width / 2) + centerX`. -/
def projectX (v : View) (x z : ℚ) : ℚ :=
  map (x / z) 0 1 0 (v.width / 2) + v.centerX

/-- `projectY(y, z) = map(y / z, 0, 1, 0, height / 2) + centerY`. -/
def projectY (v : View) (y z : ℚ) : ℚ :=
  map (y / z) 0 1 0 (v.height / 2) + v.centerY

/-- `isOffscreen(x, y)`: either coordinate outside `[0, width] × [0, height]`. -/
def isOffscreen (v : View) (x y : ℚ) : Bool :=
  decide (x < 0) || decide (x > v.width) || decide (y < 0) || decide (y > v.height)

/-- `updateStar(star, frameScale)`: decrement depth, recycle on `z < 1`
or offscreen projection; returns the updated star and the drawable flag. -/
def updateStar (o : Options) (v : View) (s : Star) (frameScale rz rx ry : ℚ) :
    Star × Bool :=
  let s1 : Star := { s with z := s.z - o.speed * v.speedMultiplier * frameScale }
  if s1.z < 1 then
    (resetStar v s1 false rz rx ry, false)
  else if isOffscreen v (projectX v s1.x s1.z) (projectY v s1.y s1.z) then
    (resetStar v s1 false rz rx ry, false)
  else
    (s1, true)

/-- The stroke command issued by one `drawStar` call: trail endpoint,
current endpoint, and line width. -/
structure DrawCmd where
  px : ℚ
  py : ℚ
  sx : ℚ
  sy : ℚ
  lineWidth : ℚ
deriving DecidableEq

/-- `drawStar(star)`: computes both segment endpoints and the line width,
then persists the current depth into `pz`. -/
def drawStar (v : View) (s : Star) : Star × DrawCmd :=
  let sx := projectX v s.x s.z
  let sy := projectY v s.y s.z
  let trailZ := min v.maxDepth (s.pz + v.trailLength)
  ({ s with pz := s.z },
   { px := projectX v s.x trailZ
     py := projectY v s.y trailZ
     sx := sx
     sy := sy
     lineWidth := clamp (map s.z 0 v.maxDepth 3 0) 0.1 3 })

/-- The per-star body of the animation loop (lines 395–400 of the source):
`if (this.updateStar(star, frameScale)) this.drawStar(star);`.
Returns the star after the tick and the draw command when it was drawn. -/
def tickStar (o : Options) (v : View) (s : Star) (frameScale rz rx ry : ℚ) :
    Star × Option DrawCmd :=
  let u := updateStar o v s frameScale rz rx ry
  if u.2 then ((drawStar v u.1).1, some (drawStar v u.1).2)
  else (u.1, none)

/-- One full update-and-draw pass over the pool.  Each pool entry is a
star paired with the random draws consumed if it is recycled. -/
def tickPool (o : Options) (v : View) (frameScale : ℚ)
    (pool : List (Star × ℚ × ℚ × ℚ)) : List (Star × Option DrawCmd) :=
  pool.map fun p => tickStar o v p.1 frameScale p.2.1 p.2.2.1 p.2.2.2

/-- Iterate `tickStar` over a sequence of ticks; each input is
`(frameScale, rz, rx, ry)`.  Returns the final star and the per-tick
draw results. -/
def runStar (o : Options) (v : View) (s : Star) :
    List (ℚ × ℚ × ℚ × ℚ) → Star × List (Option DrawCmd)
  | [] => (s, [])
  | i :: rest =>
    let r := tickStar o v s i.1 i.2.1 i.2.2.1 i.2.2.2
    let w := runStar o v r.1 rest
    (w.1, r.2 :: w.2)

/-- Projection of a tick's draw result to the drawn screen point. -/
def drawPoint (d : Option DrawCmd) : Option (ℚ × ℚ) :=
  d.map fun c => (c.sx, c.sy)

/-- The animation-loop and scheduler state: `this.running`,
`this.lastTime` (0 encodes "unset", matching the JS falsy check),
`this.rafId` (whether a handle is stored), and the number of
callbacks currently scheduled in the platform and not yet fired
or cancelled. -/
structure Loop where
  running : Bool
  lastTime : ℚ
  rafId : Bool
  pending : Nat
deriving DecidableEq

/-- `start()`: no-op when running; otherwise set `running`, clear
`lastTime`, and schedule one frame callback. -/
def start (e : Loop) : Loop :=
  if e.running then e
  else { running := true, lastTime := 0, rafId := true, pending := e.pending + 1 }

/-- `stop()`: no-op when not running; otherwise clear `running` and,
when a handle is stored, cancel the scheduled callback. -/
def stop (e : Loop) : Loop :=
  if e.running then
    if e.rafId then
      { running := false, lastTime := e.lastTime, rafId := false,
        pending := e.pending - 1 }
    else { e with running := false }
  else e

/-- The timing portion of `animate(timestamp)`: guard on `running`,
treat a falsy `lastTime` as the current timestamp, clamp the delta to
64 ms, normalize to a 60 fps baseline, store the timestamp, and
schedule the next callback.  Returns `(deltaMs, frameScale)` when the
tick ran (the per-star pass it drives is `tickPool`). -/
def animate (e : Loop) (t : ℚ) : Loop × Option (ℚ × ℚ) :=
  if e.running then
    let lt := if e.lastTime = 0 then t else e.lastTime
    let deltaMs := min 64 (t - lt)
    ({ e with lastTime := t, rafId := true, pending := e.pending + 1 },
     some (deltaMs, deltaMs / (1000 / 60)))
  else (e, none)

/-- `isMobileViewport()`: coarse pointer, or smaller viewport side below
the breakpoint.  Reads `window.innerWidth` / `window.innerHeight`. -/
def isMobileViewport (o : Options) (coarsePointer : Bool)
    (innerWidth innerHeight : ℚ) : Bool :=
  coarsePointer || decide (min innerWidth innerHeight < o.mobileBreakpoint)

/-- `global.devicePixelRatio || 1`: the native ratio, or 1 when it is
absent or falsy. -/
def rawDpr (devicePixelRatio : Option ℚ) : ℚ :=
  match devicePixelRatio with
  | none => 1
  | some d => if d = 0 then 1 else d

/-- `getDpr()`: cap the native ratio by `dprCap` when that option is a
strictly positive number; otherwise fall back to the native ratio. -/
def getDpr (o : Options) (devicePixelRatio : Option ℚ) : ℚ :=
  let dpr := rawDpr devicePixelRatio
  match o.dprCap with
  | JSVal.num cap => if 0 < cap then min dpr cap else dpr
  | JSVal.nonNum => dpr

/-- The `View` computed by `resize()`: dimensions from the window (full
page) or the target's bounding rectangle (floored, at least 1), then
center, depth scale, and the device-class multipliers.  The star
reseeding that follows is `resetStar` applied pointwise. -/
def resize (o : Options) (fullPage coarsePointer : Bool)
    (innerWidth innerHeight rectWidth rectHeight : ℚ) : View :=
  let w : ℚ := if fullPage then innerWidth else max 1 ((⌊rectWidth⌋ : ℤ) : ℚ)
  let h : ℚ := if fullPage then innerHeight else max 1 ((⌊rectHeight⌋ : ℤ) : ℚ)
  let mobile := isMobileViewport o coarsePointer innerWidth innerHeight
  { width := w
    height := h
    centerX := w / 2
    centerY := h / 2
    maxDepth := max w h
    speedMultiplier :=
      if mobile then o.mobileSpeedMultiplier else o.desktopSpeedMultiplier
    trailLength := o.trailLength *
      (if mobile then o.mobileTrailMultiplier else o.desktopTrailMultiplier) }

/-- The possible resolved mount targets, as far as the `fullPage`
auto-detection distinguishes them. -/
inductive Target where
  | body
  | documentElement
  | other
deriving DecidableEq

/-- The constructor's resolution of `this.fullPage` (lines 109–113):
an explicitly supplied option is coerced to a boolean; otherwise the
mode is auto-detected from the resolved target. -/
def resolveFullPage (optionsFullPage : Option Bool) (target : Target) : Bool :=
  match optionsFullPage with
  | some b => b
  | none => decide (target = Target.body) || decide (target = Target.documentElement)

/-- The `fullPage` entry of `DEFAULTS`. -/
def DEFAULTS_fullPage : Bool := true

/-- The merged `this.options.fullPage` after `Object.assign`: the
supplied value, or the `DEFAULTS` entry.  The constructor never reads
this field; it uses `resolveFullPage` instead. -/
def mergedFullPage (optionsFullPage : Option Bool) : Bool :=
  optionsFullPage.getD DEFAULTS_fullPage

/-! Concrete sample states used by the witnesses. -/

/-- The defaults with `speed` overridden to 0. -/
def O0 : Options := { DEFAULTS with speed := 0 }

/-- A 100×100 viewport state. -/
def V0 : View :=
  { width := 100, height := 100, centerX := 50, centerY := 50
    maxDepth := 100, speedMultiplier := 1, trailLength := 10 }

/-- A star about to recycle by depth. -/
def S0 : Star := { x := 0, y := 0, z := 0.5, pz := 0.5 }

/-- A centered star at depth 50. -/
def S1 : Star := { x := 0, y := 0, z := 50, pz := 50 }

/-- A stopped loop with nothing scheduled. -/
def L0 : Loop := { running := false, lastTime := 0, rafId := false, pending := 0 }

/-- A running loop with a set last timestamp. -/
def L1 : Loop := { running := true, lastTime := 100, rafId := true, pending := 1 }

/-! Helper lemmas. -/

/-- `updateStar` either keeps the decremented star and reports drawable,
or recycles it via `resetStar` and reports not drawable. -/
theorem updateStar_spec (o : Options) (v : View) (s : Star) (fs rz rx ry : ℚ) :
    updateStar o v s fs rz rx ry =
      ({ s with z := s.z - o.speed * v.speedMultiplier * fs }, true) ∨
    updateStar o v s fs rz rx ry =
      (resetStar v { s with z := s.z - o.speed * v.speedMultiplier * fs }
        false rz rx ry, false) := by
  simp only [updateStar]
  split_ifs <;> simp

/-- A star projected from `x = 0` lands on the horizontal center. -/
theorem projectX_zero (v : View) (z : ℚ) : projectX v 0 z = v.centerX := by
  simp [projectX, map]

/-- A star projected from `y = 0` lands on the vertical center. -/
theorem projectY_zero (v : View) (z : ℚ) : projectY v 0 z = v.centerY := by
  simp [projectY, map]

/-- A screen point inside the viewport rectangle is not offscreen. -/
theorem isOffscreen_inside (v : View) (x y : ℚ) (hx0 : 0 ≤ x) (hxw : x ≤ v.width)
    (hy0 : 0 ≤ y) (hyh : y ≤ v.height) : isOffscreen v x y = false := by
  simp only [isOffscreen, Bool.or_eq_false_iff, decide_eq_false_iff_not, not_lt]
  exact ⟨⟨⟨hx0, hxw⟩, hy0⟩, hyh⟩

/-- The depth bounds established by one `updateStar` call. -/
theorem updateStar_z_bounds (o : Options) (v : View) (s : Star) (fs rz rx ry : ℚ)
    (hmd : 0 < v.maxDepth) (hd : 0 ≤ o.speed * v.speedMultiplier * fs)
    (hz : s.z ≤ v.maxDepth) :
    0 < (updateStar o v s fs rz rx ry).1.z ∧
    (updateStar o v s fs rz rx ry).1.z ≤ v.maxDepth := by
  rcases updateStar_spec o v s fs rz rx ry with h | h
  · have h1 : ¬ ((s.z - o.speed * v.speedMultiplier * fs : ℚ) < 1) := by
      intro hlt
      have h2 : (updateStar o v s fs rz rx ry).2 = false := by
        simp only [updateStar]
        rw [if_pos hlt]
      rw [h] at h2
      simp at h2
    rw [h]
    constructor
    · show (0:ℚ) < s.z - o.speed * v.speedMultiplier * fs
      linarith [not_lt.mp h1]
    · show s.z - o.speed * v.speedMultiplier * fs ≤ v.maxDepth
      linarith
  · rw [h]
    constructor
    · simpa [resetStar] using hmd
    · simp [resetStar]

/-- A tick never changes the depth computed by the update phase. -/
theorem tickStar_fst_z (o : Options) (v : View) (s : Star) (fs rz rx ry : ℚ) :
    (tickStar o v s fs rz rx ry).1.z = (updateStar o v s fs rz rx ry).1.z := by
  rcases updateStar_spec o v s fs rz rx ry with h | h <;>
    simp [tickStar, h, drawStar]

/-- After a tick a star's trail anchor equals its depth. -/
theorem tickStar_pz_eq_z (o : Options) (v : View) (s : Star) (fs rz rx ry : ℚ) :
    (tickStar o v s fs rz rx ry).1.pz = (tickStar o v s fs rz rx ry).1.z := by
  rcases updateStar_spec o v s fs rz rx ry with h | h <;>
    simp [tickStar, h, drawStar, resetStar]

/-! Claim theorems. -/

/-- C1: for every point in the pool, after any completed tick (one full
update-and-draw pass with `frameScale ≥ 0` and nonnegative speed
settings), its depth satisfies `0 < z ≤ maxDepth`; recycling enforces
the lower bound before `z` ever reaches 0. -/
theorem C1_depth_invariant (o : Options) (v : View) (frameScale : ℚ)
    (pool : List (Star × ℚ × ℚ × ℚ)) (hmd : 0 < v.maxDepth)
    (hsp : 0 ≤ o.speed) (hsm : 0 ≤ v.speedMultiplier) (hfs : 0 ≤ frameScale)
    (hz : ∀ p ∈ pool, p.1.z ≤ v.maxDepth) :
    ∀ r ∈ tickPool o v frameScale pool, 0 < r.1.z ∧ r.1.z ≤ v.maxDepth := by
  intro r hr
  rcases List.mem_map.mp hr with ⟨p, hp, hrp⟩
  subst hrp
  have hd : 0 ≤ o.speed * v.speedMultiplier * frameScale :=
    mul_nonneg (mul_nonneg hsp hsm) hfs
  have hb := updateStar_z_bounds o v p.1 frameScale p.2.1 p.2.2.1 p.2.2.2
    hmd hd (hz p hp)
  rw [tickStar_fst_z]
  exact hb

/-- C1 witness: a concrete pool of one star at depth 50 in a 100×100
viewport keeps `0 < z ≤ maxDepth` across a tick. -/
theorem C1_depth_invariant_witness :
    0 < (tickStar DEFAULTS V0 S1 1 0 0 0).1.z ∧
    (tickStar DEFAULTS V0 S1 1 0 0 0).1.z ≤ V0.maxDepth :=
  C1_depth_invariant DEFAULTS V0 1 [(S1, 0, 0, 0)] (by norm_num [V0])
    (by norm_num [DEFAULTS]) (by norm_num [V0]) (by norm_num)
    (by norm_num [S1, V0]) (tickStar DEFAULTS V0 S1 1 0 0 0) (List.Mem.head _)

/-- C2: after the depth decrement, a point is recycled (and reported not
drawable) exactly when the new depth is below 1 or its projection is
offscreen; a recycled point restarts at `z = maxDepth` with `pz = z`. -/
theorem C2_recycle_iff (o : Options) (v : View) (s : Star)
    (frameScale rz rx ry : ℚ) :
    ((updateStar o v s frameScale rz rx ry).2 = false ↔
      (s.z - o.speed * v.speedMultiplier * frameScale < 1 ∨
        isOffscreen v
          (projectX v s.x (s.z - o.speed * v.speedMultiplier * frameScale))
          (projectY v s.y (s.z - o.speed * v.speedMultiplier * frameScale)) =
          true)) ∧
    ((updateStar o v s frameScale rz rx ry).2 = false →
      (updateStar o v s frameScale rz rx ry).1.z = v.maxDepth ∧
      (updateStar o v s frameScale rz rx ry).1.pz = v.maxDepth) := by
  simp only [updateStar]
  split_ifs with h1 h2 <;> simp_all [resetStar]

/-- C2 witness: a star entering a tick at depth 0.5 with `frameScale = 0`
is recycled to `z = pz = maxDepth`. -/
theorem C2_recycle_iff_witness :
    (updateStar DEFAULTS V0 S0 0 0 0 0).1.z = V0.maxDepth ∧
    (updateStar DEFAULTS V0 S0 0 0 0 0).1.pz = V0.maxDepth :=
  (C2_recycle_iff DEFAULTS V0 S0 0 0 0 0).2
    (by norm_num [updateStar, DEFAULTS, V0, S0])

/-- C3: a tick with a set last timestamp computes
`deltaMs = min 64 (t - lastTime)` and `frameScale = deltaMs / (1000/60)`;
a raw elapsed time of 5000 ms yields `deltaMs = 64` and
`frameScale = 3.84` exactly. -/
theorem C3_delta_clamp (e : Loop) (t : ℚ) (hr : e.running = true)
    (hl : e.lastTime ≠ 0) :
    (animate e t).2 =
      some (min 64 (t - e.lastTime), min 64 (t - e.lastTime) / (1000 / 60)) ∧
    (t - e.lastTime = 5000 → (animate e t).2 = some (64, 3.84)) := by
  constructor
  · simp [animate, hr, hl]
  · intro h5
    have h64 : min (64:ℚ) (t - e.lastTime) = 64 := by
      rw [h5]; norm_num
    simp [animate, hr, hl, h64]
    norm_num

/-- C3 witness: a running loop with `lastTime = 100` ticking at
`t = 5100` reports `deltaMs = 64` and `frameScale = 3.84`. -/
theorem C3_delta_clamp_witness : (animate L1 5100).2 = some (64, 3.84) :=
  (C3_delta_clamp L1 5100 rfl (by norm_num [L1])).2 (by norm_num [L1])

/-- C4: after `stop()` then `start()`, the first tick to execute computes
`deltaMs = 0` and `frameScale = 0` for every timestamp it receives,
because `start()` clears the stored timestamp. -/
theorem C4_resume_zero_delta (e : Loop) (t : ℚ) :
    (animate (start (stop e)) t).2 = some (0, 0) := by
  have hmin : min (64:ℚ) 0 = 0 := by norm_num
  rcases e with ⟨r, lt, ri, p⟩
  cases r <;> cases ri <;> simp [stop, start, animate, hmin]

/-- C5: `start` is idempotent (a second call is a no-op and exactly one
callback stays scheduled), `stop` on a non-running loop is a no-op,
and `stop` on a running loop clears `running` and cancels the
scheduled callback. -/
theorem C5_scheduler_idempotent (e : Loop) :
    start (start e) = start e ∧
    (e.running = false → e.pending = 0 → (start (start e)).pending = 1) ∧
    (e.running = false → stop e = e) ∧
    (e.running = true →
      (stop e).running = false ∧
      (e.rafId = true →
        (stop e).rafId = false ∧ (stop e).pending = e.pending - 1)) := by
  rcases e with ⟨r, lt, ri, p⟩
  cases r <;> cases ri <;> simp [start, stop]

/-- C5 witness: from a stopped loop with nothing scheduled, two `start`
calls leave one pending callback, `stop` on the stopped loop changes
nothing, and `stop` after `start` cancels the callback. -/
theorem C5_scheduler_idempotent_witness :
    (start (start L0)).pending = 1 ∧ stop L0 = L0 ∧
    (stop (start L0)).running = false ∧ (stop (start L0)).rafId = false :=
  ⟨(C5_scheduler_idempotent L0).2.1 rfl rfl,
   (C5_scheduler_idempotent L0).2.2.1 rfl,
   ((C5_scheduler_idempotent (start L0)).2.2.2 rfl).1,
   (((C5_scheduler_idempotent (start L0)).2.2.2 rfl).2 rfl).1⟩

/-- C6: `resize()` classifies the device as mobile exactly when the
pointer is coarse or the smaller viewport side is below the
breakpoint, and derives the speed multiplier and trail length from
that classification; with breakpoint 900 and a 500×800 viewport the
device is mobile and the speed multiplier is the mobile one. -/
theorem C6_mobile_classification (o : Options) (fullPage coarse : Bool)
    (iw ih rw rh : ℚ) :
    (isMobileViewport o coarse iw ih = true ↔
      (coarse = true ∨ min iw ih < o.mobileBreakpoint)) ∧
    ((resize o fullPage coarse iw ih rw rh).speedMultiplier =
      if isMobileViewport o coarse iw ih then o.mobileSpeedMultiplier
      else o.desktopSpeedMultiplier) ∧
    ((resize o fullPage coarse iw ih rw rh).trailLength = o.trailLength *
      (if isMobileViewport o coarse iw ih then o.mobileTrailMultiplier
       else o.desktopTrailMultiplier)) ∧
    (o.mobileBreakpoint = 900 → iw = 500 → ih = 800 →
      isMobileViewport o coarse iw ih = true ∧
      (resize o fullPage coarse iw ih rw rh).speedMultiplier =
        o.mobileSpeedMultiplier) := by
  refine ⟨?_, rfl, rfl, ?_⟩
  · simp [isMobileViewport]
  · intro hb h5 h8
    have hlt : min iw ih < o.mobileBreakpoint := by
      rw [hb, h5, h8]
      norm_num [min_def]
    have hm : isMobileViewport o coarse iw ih = true := by
      simp [isMobileViewport, hlt]
    refine ⟨hm, ?_⟩
    simp [resize, hm]

/-- C6 witness: with the default 900 breakpoint and a 500×800 viewport,
the classification is mobile and the mobile speed multiplier is used. -/
theorem C6_mobile_classification_witness :
    isMobileViewport DEFAULTS false 500 800 = true ∧
    (resize DEFAULTS true false 500 800 0 0).speedMultiplier =
      DEFAULTS.mobileSpeedMultiplier :=
  (C6_mobile_classification DEFAULTS true false 500 800 0 0).2.2.2 rfl rfl rfl

/-- C7: a `dprCap` that is not a number, or not strictly positive, is not
an error: the effective scale falls back to the native device pixel
ratio (or 1 when that is unavailable); a positive numeric cap yields
`min(nativeDpr, dprCap)`. -/
theorem C7_dpr_fallback (o : Options) (ndpr : Option ℚ) :
    (∀ c : ℚ, o.dprCap = JSVal.num c → 0 < c →
      getDpr o ndpr = min (rawDpr ndpr) c) ∧
    (∀ c : ℚ, o.dprCap = JSVal.num c → ¬ 0 < c →
      getDpr o ndpr = rawDpr ndpr) ∧
    (o.dprCap = JSVal.nonNum → getDpr o ndpr = rawDpr ndpr) ∧
    rawDpr none = 1 := by
  refine ⟨?_, ?_, ?_, rfl⟩
  · intro c hc h
    simp [getDpr, hc, h]
  · intro c hc h
    simp [getDpr, hc, h]
  · intro hc
    simp [getDpr, hc]

/-- C7 witness: the default cap 2 caps a native ratio of 3 to 2, and a
non-numeric cap falls back to the native ratio. -/
theorem C7_dpr_fallback_witness :
    getDpr DEFAULTS (some 3) = 2 ∧
    getDpr { DEFAULTS with dprCap := JSVal.nonNum } (some 3) = 3 := by
  constructor
  · have h := (C7_dpr_fallback DEFAULTS (some 3)).1 2 rfl (by norm_num)
    rw [h]
    norm_num [rawDpr]
  · have h :=
      (C7_dpr_fallback { DEFAULTS with dprCap := JSVal.nonNum } (some 3)).2.2.1
        rfl
    rw [h]
    norm_num [rawDpr]

/-- C8 counterexample: with `fullPage` unsupplied and the canvas mounted
on an element other than `document.body` or `document.documentElement`,
the constructed instance resolves `fullPage` to `false`, refuting the
claim that the default is `true` regardless of the mount element. -/
theorem C8_counterexample : resolveFullPage none Target.other = false := rfl

/-- C8 (amended): when `fullPage` is unsupplied, the merged options
record the default `true`, but the instance auto-detects: `fullPage`
resolves to `true` exactly for `document.body` and
`document.documentElement` targets and to `false` for any other mount
element; a supplied value is respected as given. -/
theorem C8_fullPage_autodetect (b : Bool) (t : Target) :
    mergedFullPage none = true ∧
    resolveFullPage none Target.body = true ∧
    resolveFullPage none Target.documentElement = true ∧
    resolveFullPage none Target.other = false ∧
    resolveFullPage (some b) t = b :=
  ⟨rfl, rfl, rfl, rfl, rfl⟩

/-- C9: with `speed = 0` and a single point at `x = 0, y = 0` whose depth
is at least 1, every tick over any input sequence reports the point
drawable and draws it at the screen center `(centerX, centerY)`. -/
theorem C9_static_center (o : Options) (v : View) (hsp : o.speed = 0)
    (hcx0 : 0 ≤ v.centerX) (hcxw : v.centerX ≤ v.width)
    (hcy0 : 0 ≤ v.centerY) (hcyh : v.centerY ≤ v.height)
    (inputs : List (ℚ × ℚ × ℚ × ℚ)) :
    ∀ s : Star, s.x = 0 → s.y = 0 → 1 ≤ s.z →
      ∀ d ∈ (runStar o v s inputs).2,
        drawPoint d = some (v.centerX, v.centerY) := by
  induction inputs with
  | nil =>
    intro s _ _ _ d hd
    simp [runStar] at hd
  | cons i rest ih =>
    intro s hx hy hz d hd
    obtain ⟨sx, sy, sz, spz⟩ := s
    dsimp only at hx hy hz
    subst hx
    subst hy
    have hoff : isOffscreen v (projectX v 0 sz) (projectY v 0 sz) = false := by
      rw [projectX_zero, projectY_zero]
      exact isOffscreen_inside v v.centerX v.centerY hcx0 hcxw hcy0 hcyh
    have h1 : ¬ (sz < 1) := not_lt.mpr hz
    have hu : updateStar o v ⟨0, 0, sz, spz⟩ i.1 i.2.1 i.2.2.1 i.2.2.2 =
        (⟨0, 0, sz, spz⟩, true) := by
      simp [updateStar, hsp, h1, hoff]
    have ht : tickStar o v ⟨0, 0, sz, spz⟩ i.1 i.2.1 i.2.2.1 i.2.2.2 =
        (⟨0, 0, sz, sz⟩, some (drawStar v ⟨0, 0, sz, spz⟩).2) := by
      simp [tickStar, hu, drawStar]
    simp only [runStar, ht] at hd
    rcases List.mem_cons.mp hd with hd1 | hd2
    · subst hd1
      simp [drawPoint, drawStar, projectX_zero, projectY_zero]
    · exact ih ⟨0, 0, sz, sz⟩ rfl rfl hz d hd2

/-- C9 witness: with speed 0, a centered star at depth 50 in a 100×100
viewport draws at `(50, 50)` on a concrete tick. -/
theorem C9_static_center_witness :
    drawPoint (tickStar O0 V0 S1 1 0 0 0).2 =
      some (V0.centerX, V0.centerY) :=
  C9_static_center O0 V0 rfl (by norm_num [V0]) (by norm_num [V0])
    (by norm_num [V0]) (by norm_num [V0]) [(1, 0, 0, 0)] S1 rfl rfl
    (by norm_num [S1]) (tickStar O0 V0 S1 1 0 0 0).2 (List.Mem.head _)

/-- C10: after every completed tick, every point in the pool satisfies
`pz = z`: a drawn point stores its new depth at the end of its draw,
and a recycled point leaves the reseed with `pz = z`. -/
theorem C10_trail_anchor (o : Options) (v : View) (frameScale : ℚ)
    (pool : List (Star × ℚ × ℚ × ℚ)) :
    ∀ r ∈ tickPool o v frameScale pool, r.1.pz = r.1.z := by
  intro r hr
  rcases List.mem_map.mp hr with ⟨p, hp, hrp⟩
  subst hrp
  exact tickStar_pz_eq_z o v p.1 frameScale p.2.1 p.2.2.1 p.2.2.2

/-- C10 witness: the concrete one-star pool from the C1 witness ends its
tick with `pz = z`. -/
theorem C10_trail_anchor_witness :
    (tickStar DEFAULTS V0 S1 1 0 0 0).1.pz =
      (tickStar DEFAULTS V0 S1 1 0 0 0).1.z :=
  C10_trail_anchor DEFAULTS V0 1 [(S1, 0, 0, 0)]
    (tickStar DEFAULTS V0 S1 1 0 0 0) (List.Mem.head _)

end Starfield
